import Mathlib

/-!
Verification of the download-to-file core of the `ipfs` readers module
(`src/go/ipfs/readers.go`), a client-side helper layer for fetching
content-addressed files through an HTTP gateway.

The embedding translates `DownloadFromUrlToFile` (lines 109-210),
the transport construction (lines 157-173), the `dialTimeout` helper
(lines 215-219) and the post-decode part of `ListFromIPFS` (lines 43-74).
Standard-library effects (os.Stat, os.MkdirAll, os.Create, url.Parse,
the HTTP GET, io.Copy, ioutil.ReadFile) are modelled as an environment
of oracles, and each run is reflected as an outcome together with the
ordered list of external effects it performed and the bytes it left in
the destination file.
-/

namespace Ipfs

/-- Models Go `strings.Split(s, sep)` for a one-character separator, on the
character list of the string: splits around every occurrence of `sep`;
on the empty list it yields `[[]]`, exactly as Go yields `[""]`. -/
def goSplit (sep : Char) : List Char → List (List Char)
  | [] => [[]]
  | c :: cs =>
    if c = sep then [] :: goSplit sep cs
    else
      match goSplit sep cs with
      | t :: ts => (c :: t) :: ts
      | [] => [[c]]

/-- Lines 110-113: `tokens := strings.Split(url0, "/")`; when `fileName` is
empty the code replaces it by `tokens[len(tokens)-1]`, the substring of the
URL after its last slash (`goSplit` never returns `[]`, so the default of
`getLastD` is never used). -/
def resolveFileName (url0 fileName : String) : String :=
  if fileName = "" then String.mk ((goSplit '/' url0.data).getLastD []) else fileName

/-- Models Go `path.Join(a, b)`: empty elements are dropped and the rest
joined with a slash. (Go additionally runs `path.Clean` on the result; no
claim here depends on cleaning, so it is not modelled.) -/
def goPathJoin (a b : String) : String :=
  if a = "" then b else if b = "" then a else a ++ "/" ++ b

/-- The path handed to `os.Create`: line 144 uses `endPath = path.Join(dirName,
fileName)` when `dirName` is non-empty, line 150 uses `fileName` alone
otherwise (lines 116, 140-155). -/
def destinationPath (url0 fileName dirName : String) : String :=
  let f := resolveFileName url0 fileName
  if dirName = "" then f else goPathJoin dirName f

/-- Line 204: the sentinel body the daemon returns with a 200 status when it
times out internally. -/
def sentinel : String := "Path Resolve error: context deadline exceeded"

/-- Line 215: `var timeout = time.Duration(10 * time.Second)`, in seconds. -/
def timeoutSeconds : Nat := 10

/-- The `Proxy` field of an `http.Transport`: `nil` (the zero value, also set
explicitly on line 160) or `http.ProxyURL(u)` (line 167). -/
inductive ProxyCfg where
  | nilProxy : ProxyCfg
  | proxyURLOf (u : String) : ProxyCfg
deriving Repr, DecidableEq

/-- The `Dial` field of an `http.Transport`: `nil` (the zero value, meaning
the default dialler with no explicit connect timeout) or the `dialTimeout`
wrapper of lines 217-219, which bounds the connect phase to
`timeoutSeconds`. -/
inductive DialFn where
  | nilDial : DialFn
  | dialTimeoutFn : DialFn
deriving Repr, DecidableEq

/-- The two `http.Transport` fields the code ever sets (lines 157-167). -/
structure GoTransport where
  proxy : ProxyCfg
  dial : DialFn
deriving Repr, DecidableEq

/-- The typed classification of the error exits of `DownloadFromUrlToFile`,
one constructor per distinct `return` of a non-nil error. -/
inductive DownloadError where
  | dirCreateError      -- line 127, MkdirAll failed
  | notADirectoryError  -- line 131, stat succeeded but not a directory
  | fileCreateError     -- lines 146/151, os.Create failed
  | invalidProxyURL     -- line 165, url.Parse of proxyURL failed
  | transportError      -- line 177, client.Get failed
  | writeError          -- lines 184/193, io.Copy failed
  | readBackError       -- lines 188/197, ioutil.ReadFile failed
  | remoteTimeoutError  -- line 206, sentinel body detected
deriving Repr, DecidableEq

/-- How a call to `DownloadFromUrlToFile` ends: a nil error, a non-nil
error, or a runtime panic. -/
inductive Outcome where
  | ok : Outcome
  | err (e : DownloadError) : Outcome
  | panicked : Outcome
deriving Repr, DecidableEq

/-- External effects of one run, in program order. -/
inductive Event where
  | mkdirAll (dir : String) (mode : Nat) : Event
  | createFile (path : String) : Event
  | httpGet (url : String) : Event
  | writeBody (path : String) (body : String) : Event
deriving Repr, DecidableEq

/-- The observable result of one run: how it ended, which external effects
it performed, and the bytes this run left in the destination file (`none`
when the run never created or touched the destination, so any pre-existing
file keeps its old contents). -/
structure FetchResult where
  outcome : Outcome
  events : List Event
  destContents : Option String
deriving Repr, DecidableEq

/-- The oracles for the standard-library effects one call performs.
`statIsDir p` is `os.Stat(p)`: `none` when stat errors (path absent),
`some b` when it succeeds with `IsDir() = b`. `parseProxy` is
`(url.URL{}).Parse`: `none` on a parse error. `httpGet t u` is a GET of
`u` through a client wrapping transport `t`: `none` on a transport error,
`some body` on a response. `leftoverBytes` is whatever prefix an
interrupted `io.Copy` left behind. -/
structure Env where
  statIsDir : String → Option Bool
  mkdirAllOk : String → Bool
  createOk : String → Bool
  parseProxy : String → Option String
  httpGet : GoTransport → String → Option String
  copyOk : Bool
  readFileOk : Bool
  leftoverBytes : String

/-- Lines 157-168: `transport := http.Transport{Dial: dialTimeout}` is
assigned first, but both branches then overwrite the whole struct: the
empty-proxy branch with `http.Transport{Proxy: nil}` (line 160) and the
proxy branch with `http.Transport{Proxy: http.ProxyURL(urlProxy)}` (line
167); a Go struct literal zeroes every omitted field, so in both cases the
`Dial` field of the transport actually used is `nil`. -/
def buildTransport (env : Env) (proxyURL : String) : Except DownloadError GoTransport :=
  let transport : GoTransport := { proxy := ProxyCfg.nilProxy, dial := DialFn.dialTimeoutFn }
  if proxyURL = "" then
    Except.ok { proxy := ProxyCfg.nilProxy, dial := DialFn.nilDial }
  else
    match env.parseProxy proxyURL with
    | none => Except.error DownloadError.invalidProxyURL
    | some u => Except.ok { proxy := ProxyCfg.proxyURLOf u, dial := DialFn.nilDial }

/-- Lines 140-209, shared by the two file branches, which differ only in the
path handed to `os.Create` and `ioutil.ReadFile` (`endPath` when `dirName`
is non-empty, `fileName` otherwise): create-or-truncate the destination,
build the transport, GET the URL, copy the body to the file, read the file
back and compare it with the sentinel. `evs` are the effects already
performed by the directory stage. -/
def downloadBody (env : Env) (url0 proxyURL destPath : String) (evs : List Event) :
    FetchResult :=
  if env.createOk destPath then
    let evs := evs ++ [Event.createFile destPath]
    match buildTransport env proxyURL with
    | Except.error e => { outcome := Outcome.err e, events := evs, destContents := some "" }
    | Except.ok transport =>
      let evs := evs ++ [Event.httpGet url0]
      match env.httpGet transport url0 with
      | none =>
          { outcome := Outcome.err DownloadError.transportError, events := evs,
            destContents := some "" }
      | some body =>
          if env.copyOk then
            let evs := evs ++ [Event.writeBody destPath body]
            if env.readFileOk then
              if body = sentinel then
                { outcome := Outcome.err DownloadError.remoteTimeoutError, events := evs,
                  destContents := some body }
              else
                { outcome := Outcome.ok, events := evs, destContents := some body }
            else
              { outcome := Outcome.err DownloadError.readBackError, events := evs,
                destContents := some body }
          else
            { outcome := Outcome.err DownloadError.writeError, events := evs,
              destContents := some env.leftoverBytes }
  else
    { outcome := Outcome.err DownloadError.fileCreateError, events := evs,
      destContents := none }

/-- Lines 109-210, `DownloadFromUrlToFile(url0, fileName, dirName, proxyURL)`.
The directory stage (lines 117-132): when `dirName` is non-empty the code
calls `os.Stat`; on a stat error it runs `os.MkdirAll(dirName, 0700)` and,
when that succeeds, falls through to `checkDir.IsDir()` with `checkDir`
still the nil interface returned by the failed stat, a nil-pointer
dereference, i.e. a panic. When stat succeeds and the path is not a
directory it returns the not-a-directory error. -/
def DownloadFromUrlToFile (env : Env) (url0 fileName dirName proxyURL : String) :
    FetchResult :=
  let destPath := destinationPath url0 fileName dirName
  if dirName = "" then
    downloadBody env url0 proxyURL destPath []
  else
    match env.statIsDir dirName with
    | none =>
      if env.mkdirAllOk dirName then
        { outcome := Outcome.panicked, events := [Event.mkdirAll dirName 0o700],
          destContents := none }
      else
        { outcome := Outcome.err DownloadError.dirCreateError, events := [],
          destContents := none }
    | some isDir =>
      if isDir then downloadBody env url0 proxyURL destPath []
      else
        { outcome := Outcome.err DownloadError.notADirectoryError, events := [],
          destContents := none }

/-- One link of the `ls` response (lines 51-54). -/
structure LsLink where
  name : String
  hash : String
  size : Nat
deriving Repr, DecidableEq

/-- One object of the `ls` response (lines 55-58). -/
structure LsObject where
  hash : String
  links : List LsLink
deriving Repr, DecidableEq

/-- How `ListFromIPFS` ends: a formatted string, a returned decode error,
or a runtime panic. -/
inductive LsOutcome where
  | ok (s : String) : LsOutcome
  | errDecode : LsOutcome
  | panicked : LsOutcome
deriving Repr, DecidableEq

/-- Lines 60-74 of `ListFromIPFS`, from the JSON decode on: `decoded` is the
result of `dec.Decode(&out)` giving the `Objects` list (Go `{"Objects": []}`
decodes without error to an empty slice). On a decode error the function
returns it; otherwise it immediately indexes `out.Objects[0]`, which on an
empty slice is an index-out-of-range panic, then joins `hash + " " + name`
of the links with newlines. -/
def ListFromIPFS (decoded : Except String (List LsObject)) : LsOutcome :=
  match decoded with
  | Except.error _ => LsOutcome.errDecode
  | Except.ok objects =>
    match objects.get? 0 with
    | none => LsOutcome.panicked
    | some o =>
      LsOutcome.ok (String.intercalate "\n" (o.links.map fun c => c.hash ++ " " ++ c.name))

/-- A concrete environment where every effect succeeds: the destination
directory exists, files can be created, every proxy URL except
`"http://bad proxy"` parses, and every GET returns the body
`"hello world"`. -/
def envBase : Env where
  statIsDir := fun _ => some true
  mkdirAllOk := fun _ => true
  createOk := fun _ => true
  parseProxy := fun s => if s = "http://bad proxy" then none else some s
  httpGet := fun _ _ => some "hello world"
  copyOk := true
  readFileOk := true
  leftoverBytes := ""

/-- Like `envBase` but every GET returns exactly the sentinel body. -/
def envSentinel : Env :=
  { envBase with httpGet := fun _ _ => some sentinel }

/-- Like `envBase` but `os.Stat` fails on every path (the directory does
not exist). -/
def envMissingDir : Env :=
  { envBase with statIsDir := fun _ => none }

/-- Like `envBase` but `os.Stat` reports every path as an existing
non-directory (a regular file). -/
def envNotDir : Env :=
  { envBase with statIsDir := fun _ => some false }

/-- Like `envBase` but every GET fails with a transport error. -/
def envNoNet : Env :=
  { envBase with httpGet := fun _ _ => none }

/-!
Helper lemmas about `goSplit` and `List.getLastD`, used to settle the
file-name resolution claim.
-/

theorem goSplit_ne_nil (sep : Char) (l : List Char) : goSplit sep l ≠ [] := by
  cases l with
  | nil => simp [goSplit]
  | cons c cs =>
    simp only [goSplit]
    split
    · simp
    · split <;> simp

theorem goSplit_of_not_mem (sep : Char) (l : List Char) (h : sep ∉ l) :
    goSplit sep l = [l] := by
  induction l with
  | nil => rfl
  | cons c cs ih =>
    simp only [List.mem_cons, not_or] at h
    simp only [goSplit]
    rw [if_neg (fun hh => h.1 hh.symm), ih h.2]

theorem two_le_length_goSplit (sep : Char) (l : List Char) (h : sep ∈ l) :
    2 ≤ (goSplit sep l).length := by
  induction l with
  | nil => cases h
  | cons c cs ih =>
    simp only [goSplit]
    by_cases hc : c = sep
    · rw [if_pos hc]
      cases hgs : goSplit sep cs with
      | nil => exact absurd hgs (goSplit_ne_nil sep cs)
      | cons t ts => simp
    · rw [if_neg hc]
      have hmem : sep ∈ cs := by
        rcases List.mem_cons.mp h with h1 | h2
        · exact absurd h1.symm hc
        · exact h2
      have hlen := ih hmem
      cases hgs : goSplit sep cs with
      | nil => rw [hgs] at hlen; simp at hlen
      | cons t ts =>
        rw [hgs] at hlen
        show 2 ≤ ((c :: t) :: ts).length
        simpa using hlen

theorem getLastD_irrel {α : Type} (l : List α) (h : l ≠ []) (d d' : α) :
    l.getLastD d = l.getLastD d' := by
  cases l with
  | nil => exact absurd rfl h
  | cons b l => rw [List.getLastD_cons d b l, List.getLastD_cons d' b l]

theorem goSplit_append_sep_last (sep : Char) (xs seg : List Char) (h : sep ∉ seg) :
    (goSplit sep (xs ++ sep :: seg)).getLastD [] = seg := by
  induction xs with
  | nil =>
    simp only [List.nil_append, goSplit, goSplit_of_not_mem sep seg h]
    simp [List.getLastD_cons]
  | cons c xs ih =>
    have hmem : sep ∈ xs ++ sep :: seg := by simp
    have h2 := two_le_length_goSplit sep _ hmem
    rw [List.cons_append]
    simp only [goSplit]
    by_cases hc : c = sep
    · rw [if_pos hc, List.getLastD_cons]
      exact ih
    · rw [if_neg hc]
      cases hgs : goSplit sep (xs ++ sep :: seg) with
      | nil => exact absurd hgs (goSplit_ne_nil sep _)
      | cons t ts =>
        rw [hgs] at ih h2
        cases ts with
        | nil => simp at h2
        | cons t2 ts =>
          show ((c :: t) :: t2 :: ts).getLastD [] = seg
          rw [List.getLastD_cons]
          rw [getLastD_irrel (t2 :: ts) (by simp) (c :: t) t]
          rw [List.getLastD_cons] at ih
          exact ih

theorem string_data_append (a b : String) : (a ++ b).data = a.data ++ b.data := by
  cases a; cases b; rfl

/-- When the body stage performs the GET (its event is in the result but not
in the inherited prefix), every GET returns the sentinel body, and the local
copy and read-back succeed, the body stage ends in the remote-timeout
error. -/
theorem downloadBody_sentinel_err (env : Env) (u p d : String) (evs : List Event)
    (hcopy : env.copyOk = true) (hread : env.readFileOk = true)
    (hbody : ∀ t, env.httpGet t u = some sentinel)
    (hnotin : Event.httpGet u ∉ evs)
    (hget : Event.httpGet u ∈ (downloadBody env u p d evs).events) :
    (downloadBody env u p d evs).outcome = Outcome.err DownloadError.remoteTimeoutError := by
  cases hc : env.createOk d with
  | false =>
    simp [downloadBody, hc] at hget
    exact absurd hget hnotin
  | true =>
    cases hb : buildTransport env p with
    | error e =>
      simp [downloadBody, hc, hb] at hget
      exact absurd hget hnotin
    | ok t =>
      simp [downloadBody, hc, hb, hbody t, hcopy, hread]

/-- When the body stage performs the GET, every GET returns a fixed
non-sentinel body, and the local copy and read-back succeed, the body stage
returns success and leaves exactly the response body in the destination
file. -/
theorem downloadBody_roundtrip (env : Env) (u p d : String) (evs : List Event)
    (body : String)
    (hcopy : env.copyOk = true) (hread : env.readFileOk = true)
    (hbody : ∀ t, env.httpGet t u = some body) (hne : body ≠ sentinel)
    (hnotin : Event.httpGet u ∉ evs)
    (hget : Event.httpGet u ∈ (downloadBody env u p d evs).events) :
    (downloadBody env u p d evs).outcome = Outcome.ok ∧
    (downloadBody env u p d evs).destContents = some body := by
  cases hc : env.createOk d with
  | false =>
    simp [downloadBody, hc] at hget
    exact absurd hget hnotin
  | true =>
    cases hb : buildTransport env p with
    | error e =>
      simp [downloadBody, hc, hb] at hget
      exact absurd hget hnotin
    | ok t =>
      simp [downloadBody, hc, hb, hbody t, hcopy, hread, hne]

/-- C1: for every Fetch (`DownloadFromUrlToFile`) call whose HTTP GET
succeeds and whose written destination file contents are byte-identical to
the sentinel string, Fetch returns the remote-timeout error rather than
success, even though the transport layer reported a normal response. -/
theorem fetch_sentinel_body_fails_with_remote_timeout
    (env : Env) (url0 fileName dirName proxyURL : String)
    (hcopy : env.copyOk = true) (hread : env.readFileOk = true)
    (hbody : ∀ t, env.httpGet t url0 = some sentinel)
    (hget : Event.httpGet url0
      ∈ (DownloadFromUrlToFile env url0 fileName dirName proxyURL).events) :
    (DownloadFromUrlToFile env url0 fileName dirName proxyURL).outcome
      = Outcome.err DownloadError.remoteTimeoutError := by
  by_cases hd : dirName = ""
  · simp only [DownloadFromUrlToFile, hd, if_pos rfl] at hget ⊢
    exact downloadBody_sentinel_err env url0 proxyURL _ [] hcopy hread hbody (by simp) hget
  · cases hs : env.statIsDir dirName with
    | none =>
      cases hm : env.mkdirAllOk dirName with
      | true => simp [DownloadFromUrlToFile, hd, hs, hm] at hget
      | false => simp [DownloadFromUrlToFile, hd, hs, hm] at hget
    | some isDir =>
      cases isDir with
      | false => simp [DownloadFromUrlToFile, hd, hs] at hget
      | true =>
        simp only [DownloadFromUrlToFile, hd, hs, if_neg hd] at hget ⊢
        exact downloadBody_sentinel_err env url0 proxyURL _ [] hcopy hread hbody (by simp) hget

/-- Witness for C1 at a concrete input: the daemon answers every GET with
the sentinel body and Fetch reports the remote-timeout error. -/
theorem fetch_sentinel_body_fails_with_remote_timeout_witness :
    (DownloadFromUrlToFile envSentinel "http://gw.example/ipfs/Qm123" "" "" "").outcome
      = Outcome.err DownloadError.remoteTimeoutError :=
  fetch_sentinel_body_fails_with_remote_timeout envSentinel
    "http://gw.example/ipfs/Qm123" "" "" "" rfl rfl (fun _ => rfl) (by decide)

/-- C4: for every Fetch call where the HTTP GET succeeds and the response
body is any byte sequence different from the sentinel, Fetch returns
success and the destination file holds exactly the response body, with no
transformation. -/
theorem fetch_nonsentinel_body_roundtrip
    (env : Env) (url0 fileName dirName proxyURL body : String)
    (hcopy : env.copyOk = true) (hread : env.readFileOk = true)
    (hbody : ∀ t, env.httpGet t url0 = some body) (hne : body ≠ sentinel)
    (hget : Event.httpGet url0
      ∈ (DownloadFromUrlToFile env url0 fileName dirName proxyURL).events) :
    (DownloadFromUrlToFile env url0 fileName dirName proxyURL).outcome = Outcome.ok ∧
    (DownloadFromUrlToFile env url0 fileName dirName proxyURL).destContents = some body := by
  by_cases hd : dirName = ""
  · simp only [DownloadFromUrlToFile, hd, if_pos rfl] at hget ⊢
    exact downloadBody_roundtrip env url0 proxyURL _ [] body hcopy hread hbody hne (by simp) hget
  · cases hs : env.statIsDir dirName with
    | none =>
      cases hm : env.mkdirAllOk dirName with
      | true => simp [DownloadFromUrlToFile, hd, hs, hm] at hget
      | false => simp [DownloadFromUrlToFile, hd, hs, hm] at hget
    | some isDir =>
      cases isDir with
      | false => simp [DownloadFromUrlToFile, hd, hs] at hget
      | true =>
        simp only [DownloadFromUrlToFile, hd, hs, if_neg hd] at hget ⊢
        exact downloadBody_roundtrip env url0 proxyURL _ [] body hcopy hread hbody hne
          (by simp) hget

/-- Witness for C4 at the concrete scenario of the spec: a 200 response
with body `hello world` yields success and a local file `Qm123` containing
exactly `hello world`. -/
theorem fetch_nonsentinel_body_roundtrip_witness :
    (DownloadFromUrlToFile envBase "http://gw.example/ipfs/Qm123" "" "" "").outcome
      = Outcome.ok ∧
    (DownloadFromUrlToFile envBase "http://gw.example/ipfs/Qm123" "" "" "").destContents
      = some "hello world" :=
  fetch_nonsentinel_body_roundtrip envBase "http://gw.example/ipfs/Qm123" "" "" ""
    "hello world" rfl rfl (fun _ => rfl) (by decide) (by decide)

/-- C5: for every Fetch call with a non-empty directory naming an existing
path that is not a directory, Fetch returns the not-a-directory error and
performs no writes: no directory or file is created, the destination is
never truncated, and no HTTP request is made (the whole result is the
error with an empty effect list and an untouched destination). -/
theorem fetch_not_a_directory_no_writes
    (env : Env) (url0 fileName dirName proxyURL : String)
    (hd : dirName ≠ "") (hs : env.statIsDir dirName = some false) :
    DownloadFromUrlToFile env url0 fileName dirName proxyURL =
      { outcome := Outcome.err DownloadError.notADirectoryError, events := [],
        destContents := none } := by
  simp [DownloadFromUrlToFile, hd, hs]

/-- Witness for C5 at a concrete input: the directory argument names an
existing regular file. -/
theorem fetch_not_a_directory_no_writes_witness :
    DownloadFromUrlToFile envNotDir "http://gw.example/ipfs/Qm123" "" "somefile" "" =
      { outcome := Outcome.err DownloadError.notADirectoryError, events := [],
        destContents := none } :=
  fetch_not_a_directory_no_writes envNotDir "http://gw.example/ipfs/Qm123" "" "somefile" ""
    (by decide) rfl

/-- C6: for every Fetch call with a non-empty proxy URL that fails to
parse, Fetch returns the invalid-proxy error and no HTTP GET is ever
issued. -/
theorem fetch_invalid_proxy_before_network
    (env : Env) (url0 fileName dirName proxyURL : String)
    (hd : dirName = "" ∨ env.statIsDir dirName = some true)
    (hc : env.createOk (destinationPath url0 fileName dirName) = true)
    (hp : proxyURL ≠ "") (hparse : env.parseProxy proxyURL = none) :
    (DownloadFromUrlToFile env url0 fileName dirName proxyURL).outcome
      = Outcome.err DownloadError.invalidProxyURL ∧
    ∀ w, Event.httpGet w ∉ (DownloadFromUrlToFile env url0 fileName dirName proxyURL).events := by
  have hb : buildTransport env proxyURL = Except.error DownloadError.invalidProxyURL := by
    simp [buildTransport, hp, hparse]
  by_cases hd0 : dirName = ""
  · subst hd0
    simp [DownloadFromUrlToFile, downloadBody, hc, hb]
  · rcases hd with hd | hd
    · exact absurd hd hd0
    · simp [DownloadFromUrlToFile, downloadBody, hd0, hd, hc, hb]

/-- Witness for C6 at the concrete input of the spec: the unparsable proxy
URL `http://bad proxy` yields the invalid-proxy error and no GET event. -/
theorem fetch_invalid_proxy_before_network_witness :
    (DownloadFromUrlToFile envBase "http://gw.example/ipfs/Qm123" "" "" "http://bad proxy").outcome
      = Outcome.err DownloadError.invalidProxyURL ∧
    Event.httpGet "http://gw.example/ipfs/Qm123"
      ∉ (DownloadFromUrlToFile envBase "http://gw.example/ipfs/Qm123" "" "" "http://bad proxy").events :=
  ⟨(fetch_invalid_proxy_before_network envBase "http://gw.example/ipfs/Qm123" "" "" "http://bad proxy"
      (Or.inl rfl) rfl (by decide) (by decide)).1,
   (fetch_invalid_proxy_before_network envBase "http://gw.example/ipfs/Qm123" "" "" "http://bad proxy"
      (Or.inl rfl) rfl (by decide) (by decide)).2 "http://gw.example/ipfs/Qm123"⟩

/-- C10: the destination file is created with truncate-or-create semantics
before the proxy URL is parsed and before any HTTP request: when Fetch then
fails with the invalid-proxy error or with a transport error, the
destination has already been truncated to empty and is not restored. -/
theorem fetch_truncates_before_proxy_parse_and_get
    (env : Env) (url0 fileName dirName proxyURL : String)
    (hd : dirName = "" ∨ env.statIsDir dirName = some true)
    (hc : env.createOk (destinationPath url0 fileName dirName) = true) :
    (env.parseProxy proxyURL = none → proxyURL ≠ "" →
      (DownloadFromUrlToFile env url0 fileName dirName proxyURL).outcome
        = Outcome.err DownloadError.invalidProxyURL ∧
      (DownloadFromUrlToFile env url0 fileName dirName proxyURL).destContents = some "" ∧
      Event.createFile (destinationPath url0 fileName dirName)
        ∈ (DownloadFromUrlToFile env url0 fileName dirName proxyURL).events ∧
      ∀ w, Event.httpGet w
        ∉ (DownloadFromUrlToFile env url0 fileName dirName proxyURL).events) ∧
    (∀ t, buildTransport env proxyURL = Except.ok t → env.httpGet t url0 = none →
      (DownloadFromUrlToFile env url0 fileName dirName proxyURL).outcome
        = Outcome.err DownloadError.transportError ∧
      (DownloadFromUrlToFile env url0 fileName dirName proxyURL).destContents = some "" ∧
      Event.createFile (destinationPath url0 fileName dirName)
        ∈ (DownloadFromUrlToFile env url0 fileName dirName proxyURL).events) := by
  constructor
  · intro hparse hp
    have hb : buildTransport env proxyURL = Except.error DownloadError.invalidProxyURL := by
      simp [buildTransport, hp, hparse]
    by_cases hd0 : dirName = ""
    · subst hd0
      simp [DownloadFromUrlToFile, downloadBody, hc, hb]
    · rcases hd with hd | hd
      · exact absurd hd hd0
      · simp [DownloadFromUrlToFile, downloadBody, hd0, hd, hc, hb]
  · intro t hb hfail
    by_cases hd0 : dirName = ""
    · subst hd0
      simp [DownloadFromUrlToFile, downloadBody, hc, hb, hfail]
    · rcases hd with hd | hd
      · exact absurd hd hd0
      · simp [DownloadFromUrlToFile, downloadBody, hd0, hd, hc, hb, hfail]

/-- Witness for C10 at a concrete input: with an unparsable proxy URL the
call fails with the invalid-proxy error, yet the destination has already
been created and truncated to empty. -/
theorem fetch_truncates_before_proxy_parse_and_get_witness :
    (DownloadFromUrlToFile envBase "http://gw.example/ipfs/Qm123" "" "" "http://bad proxy").outcome
      = Outcome.err DownloadError.invalidProxyURL ∧
    (DownloadFromUrlToFile envBase "http://gw.example/ipfs/Qm123" "" "" "http://bad proxy").destContents
      = some "" ∧
    Event.createFile (destinationPath "http://gw.example/ipfs/Qm123" "" "")
      ∈ (DownloadFromUrlToFile envBase "http://gw.example/ipfs/Qm123" "" "" "http://bad proxy").events :=
  ⟨((fetch_truncates_before_proxy_parse_and_get envBase "http://gw.example/ipfs/Qm123" "" ""
      "http://bad proxy" (Or.inl rfl) rfl).1 rfl (by decide)).1,
   ((fetch_truncates_before_proxy_parse_and_get envBase "http://gw.example/ipfs/Qm123" "" ""
      "http://bad proxy" (Or.inl rfl) rfl).1 rfl (by decide)).2.1,
   ((fetch_truncates_before_proxy_parse_and_get envBase "http://gw.example/ipfs/Qm123" "" ""
      "http://bad proxy" (Or.inl rfl) rfl).1 rfl (by decide)).2.2.1⟩

/-- C8: for every Fetch call with a non-empty proxy URL that parses
successfully, the transport the HTTP client is built with forwards all
connections through that proxy, and its dial field is the zero value, so
the explicit 10-second connect-timeout dialler is not applied in this
branch. -/
theorem buildTransport_proxy_branch_forwards_without_dial_timeout
    (env : Env) (proxyURL u : String)
    (hp : proxyURL ≠ "") (hparse : env.parseProxy proxyURL = some u) :
    buildTransport env proxyURL =
      Except.ok { proxy := ProxyCfg.proxyURLOf u, dial := DialFn.nilDial } := by
  simp [buildTransport, hp, hparse]

/-- Witness for C8 at a concrete parsable proxy URL. -/
theorem buildTransport_proxy_branch_forwards_without_dial_timeout_witness :
    buildTransport envBase "http://proxy.example:8080" =
      Except.ok { proxy := ProxyCfg.proxyURLOf "http://proxy.example:8080",
                  dial := DialFn.nilDial } :=
  buildTransport_proxy_branch_forwards_without_dial_timeout envBase
    "http://proxy.example:8080" "http://proxy.example:8080" (by decide) (by decide)

/-- C2 (evaluating the code at the failing input): in the direct-connection
branch (empty proxy URL) the transport the client is built with has the
zero-value dial field, not the `dialTimeout` wrapper: line 160 overwrites
the whole transport struct with `http.Transport{Proxy: nil}`, which zeroes
the `Dial` field set on line 157, so no 10-second connect timeout is in
effect, contradicting the comment on line 170. -/
theorem buildTransport_direct_branch_drops_dial_timeout (env : Env) :
    buildTransport env "" =
      Except.ok { proxy := ProxyCfg.nilProxy, dial := DialFn.nilDial } := by
  simp [buildTransport]

/-- Witness for the C2 evaluation at a concrete environment: the
direct-connection transport carries no dial-timeout wrapper. -/
theorem buildTransport_direct_branch_drops_dial_timeout_witness :
    buildTransport envBase "" =
      Except.ok { proxy := ProxyCfg.nilProxy, dial := DialFn.nilDial } :=
  buildTransport_direct_branch_drops_dial_timeout envBase

/-- C3 (evaluating the code at the failing input): when the directory
argument is non-empty, `os.Stat` fails (the directory is absent) and
`os.MkdirAll` succeeds, the run does create the directory with mode 0700
but then panics: `checkDir` is the nil interface returned by the failed
stat, and line 130 calls `checkDir.IsDir()` on it, a nil-pointer
dereference, so Fetch never reaches the file-creation stage and never
returns success. -/
theorem fetch_missing_dir_creates_then_panics
    (env : Env) (url0 fileName dirName proxyURL : String)
    (hd : dirName ≠ "") (hs : env.statIsDir dirName = none)
    (hm : env.mkdirAllOk dirName = true) :
    DownloadFromUrlToFile env url0 fileName dirName proxyURL =
      { outcome := Outcome.panicked, events := [Event.mkdirAll dirName 0o700],
        destContents := none } := by
  simp [DownloadFromUrlToFile, hd, hs, hm]

/-- Witness for the C3 evaluation at a concrete input: a missing directory
is created and then the call panics. -/
theorem fetch_missing_dir_creates_then_panics_witness :
    DownloadFromUrlToFile envMissingDir "http://gw.example/ipfs/Qm123" "" "downloads" "" =
      { outcome := Outcome.panicked, events := [Event.mkdirAll "downloads" 0o700],
        destContents := none } :=
  fetch_missing_dir_creates_then_panics envMissingDir "http://gw.example/ipfs/Qm123" ""
    "downloads" "" (by decide) rfl rfl

/-- C7: for every source URL of the shape `pre/seg` with `seg` free of
slashes, an empty file-name argument resolves to `seg`, and with an empty
directory the destination path is that segment alone. -/
theorem resolveFileName_last_segment
    (pre seg : String) (h : '/' ∉ seg.data) :
    resolveFileName (pre ++ "/" ++ seg) "" = seg ∧
    destinationPath (pre ++ "/" ++ seg) "" "" = seg := by
  have hdata : (pre ++ "/" ++ seg).data = pre.data ++ '/' :: seg.data := by
    rw [string_data_append, string_data_append, List.append_assoc]
    rfl
  have h1 : resolveFileName (pre ++ "/" ++ seg) "" = seg := by
    unfold resolveFileName
    rw [if_pos rfl, hdata, goSplit_append_sep_last '/' pre.data seg.data h]
  exact ⟨h1, by simp [destinationPath, h1]⟩

/-- Witness for C7 at the concrete scenario of the spec: the URL
`http://gw.example/ipfs/Qm123` with empty file name resolves to `Qm123`. -/
theorem resolveFileName_last_segment_witness :
    resolveFileName ("http://gw.example/ipfs" ++ "/" ++ "Qm123") "" = "Qm123" ∧
    destinationPath ("http://gw.example/ipfs" ++ "/" ++ "Qm123") "" "" = "Qm123" :=
  resolveFileName_last_segment "http://gw.example/ipfs" "Qm123" (by decide)

/-- C9: a response body that decodes to an empty `Objects` list (such as
the JSON text with an empty `Objects` array) passes the decode-error check
of `ListFromIPFS`, which then indexes `Objects[0]` out of bounds: the call
panics instead of returning an error. -/
theorem listFromIPFS_empty_objects_panics :
    ListFromIPFS (Except.ok []) = LsOutcome.panicked := rfl

end Ipfs
